import Mathlib

/-!
Shallow embedding of the benchmark-orchestration core of the
noa-esp32-server repository (files performance_tester_en.py,
performance_tester_grid_search.py, test_function_calling.py), together
with theorems settling the frozen claims C1 .. C10.

Numeric measurements are modelled as rationals (ideal arithmetic).  The
only occurrence of a square root in the source is `statistics.stdev`;
the embedding stores the squared value (the sample variance, with the
source's `if len > 1 else 0` guard) and states the source's comparison
`t <= mean + 3 * stdev` in an exactly equivalent square-free decidable
form, proved equivalent to the `Real.sqrt` formulation in
`keep_3sigma_iff_sqrt`.
-/

/-! ## Python string primitives -/

/-- Lower-casing of one character, as Python `str.lower` acts on ASCII
letters (all patterns compared after lowering in the source are ASCII). -/
def charLower (c : Char) : Char :=
  if 65 ≤ c.toNat ∧ c.toNat ≤ 90 then Char.ofNat (c.toNat + 32) else c

/-- Python `s.lower()`. -/
def pyLower (s : String) : String := ⟨s.data.map charLower⟩

/-- Boolean test that the first character list is a prefix of the second. -/
def charsPrefixOf : List Char → List Char → Bool
  | [], _ => true
  | _ :: _, [] => false
  | a :: as, b :: bs => a == b && charsPrefixOf as bs

/-- Boolean test that `pat` occurs as a contiguous run inside the second list. -/
def charsContains (pat : List Char) : List Char → Bool
  | [] => charsPrefixOf pat []
  | c :: rest => charsPrefixOf pat (c :: rest) || charsContains pat rest

/-- Python substring membership `pat in hay`. -/
def pyIn (pat hay : String) : Bool := charsContains pat.data hay.data

/-! ## Response classifier, test_function_calling.py `_analyze_function_response` -/

/-- The `json_patterns` list (lines 168-171). -/
def fc_json_patterns : List String :=
  ["get_weather", "play_music", "get_news", "home_control",
   "temperature_control", "get_time", "device_status"]

/-- The `function_keywords` list (lines 174-177). -/
def fc_function_keywords : List String :=
  ["function", "call", "invoke", "execute", "api",
   "weather api", "music player", "news feed", "smart home"]

/-- The `structured_patterns` list (lines 180-182); the brace characters are
written with hex escapes. -/
def fc_structured_patterns : List String :=
  ["\x7b", "\x7d", "[", "]", "function_name", "parameters"]

/-- Number of patterns of `pats` occurring in `s` (each loop iteration that
fires adds its weight once per pattern). -/
def matchCount (pats : List String) (s : String) : ℕ :=
  (pats.filter (fun p => pyIn p s)).length

/-- Python `any(word in s for word in ws)`. -/
def anyWordIn (ws : List String) (s : String) : Bool := ws.any (fun w => pyIn w s)

/-- The special-case bonus chain (lines 203-208), on the already lowered
response. -/
def fc_special_bonus (scenario_name response_lower : String) : ℕ :=
  if scenario_name == "Weather Query" &&
      anyWordIn ["weather", "temperature", "forecast"] response_lower then 2
  else if scenario_name == "Music Playback" &&
      anyWordIn ["music", "play", "song"] response_lower then 2
  else if scenario_name == "News Request" &&
      anyWordIn ["news", "article", "update"] response_lower then 2
  else 0

/-- The accumulated score of `_analyze_function_response`
(test_function_calling.py lines 184-208). -/
def fc_score (response scenario_name : String) : ℕ :=
  3 * matchCount fc_json_patterns (pyLower response)
    + 2 * matchCount fc_function_keywords (pyLower response)
    + matchCount fc_structured_patterns (pyLower response)
    + fc_special_bonus scenario_name (pyLower response)

/-- Function `_analyze_function_response` of test_function_calling.py: verdict
`score >= 3` (line 210). -/
def analyze_function_response (response scenario_name : String) : Bool :=
  decide (3 ≤ fc_score response scenario_name)

/-! ## Response classifier, performance_tester_grid_search.py
`_analyze_function_response` -/

/-- The `structured_patterns` list of the grid-search variant (line 185). -/
def grid_structured_patterns : List String :=
  ["function", "call", "api", "tool", "action"]

/-- The accumulated score of the grid-search `_analyze_function_response`
(lines 179-188): 2 per scenario keyword present, 1 per structural pattern. -/
def grid_score (response : String) (function_keywords : List String) : ℕ :=
  2 * matchCount function_keywords (pyLower response)
    + matchCount grid_structured_patterns (pyLower response)

/-- Grid-search `_analyze_function_response`: verdict `score >= 3` (line 190). -/
def grid_analyze_function_response (response : String)
    (function_keywords : List String) : Bool :=
  decide (3 ≤ grid_score response function_keywords)

/-! ## Statistics helpers (module `statistics`) -/

/-- Python `statistics.mean`. -/
def stat_mean (l : List ℚ) : ℚ := l.sum / (l.length : ℚ)

/-- Sample variance, the square of `statistics.stdev` on a list with at
least two elements. -/
def stat_variance (l : List ℚ) : ℚ :=
  (l.map (fun x => (x - stat_mean l) ^ 2)).sum / ((l.length : ℚ) - 1)

/-- The square of the source idiom
`statistics.stdev(l) if len(l) > 1 else 0`. -/
def stat_stdev_sq (l : List ℚ) : ℚ := if 1 < l.length then stat_variance l else 0

/-- Python `min` of a list (the source only applies it to non-empty lists;
the default is irrelevant there). -/
def list_min (l : List ℚ) : ℚ := (l.min?).getD 0

/-- Python `max` of a list, same remark as `list_min`. -/
def list_max (l : List ℚ) : ℚ := (l.max?).getD 0

/-! ## LLM probe, performance_tester_en.py -/

/-- One measured trial, the dict built by `_test_single_sentence`
(lines 340-349). -/
structure Trial where
  first_token_time : ℚ
  response_time : ℚ
  response_length : ℚ
  tokens_per_second : ℚ
  deriving DecidableEq, Repr

/-- The pure tail of `_test_single_sentence` (lines 331-349): given the
measured first-chunk latency (`none` when no non-empty chunk arrived), the
total latency and the response length, build the trial record.
`tokens_per_second` is `response_length / response_time if response_time > 0
else 0`; a missing first token is replaced by the total response time. -/
def single_sentence_trial (first_token : Option ℚ) (response_time : ℚ)
    (response_length : ℕ) : Trial :=
  { first_token_time := first_token.getD response_time
    response_time := response_time
    response_length := (response_length : ℚ)
    tokens_per_second :=
      if 0 < response_time then (response_length : ℚ) / response_time else 0 }

/-- Line 266, `valid_results = [r for r in sentence_results if r is not None]`
(line 266). -/
def valid_results : List (Option Trial) → List Trial
  | [] => []
  | some t :: rest => t :: valid_results rest
  | none :: rest => valid_results rest

/-- The `response_times` list (line 273). -/
def response_times (sr : List (Option Trial)) : List ℚ :=
  (valid_results sr).map Trial.response_time

/-- The `first_token_times` list (line 272). -/
def first_token_times (sr : List (Option Trial)) : List ℚ :=
  (valid_results sr).map Trial.first_token_time

/-- The `response_lengths` list (line 274). -/
def response_lengths (sr : List (Option Trial)) : List ℚ :=
  (valid_results sr).map Trial.response_length

/-- The `tokens_per_second` list (line 275). -/
def tokens_per_second_list (sr : List (Option Trial)) : List ℚ :=
  (valid_results sr).map Trial.tokens_per_second

/-- Line 278, `mean_response = statistics.mean(response_times)`. -/
def mean_response (sr : List (Option Trial)) : ℚ := stat_mean (response_times sr)

/-- Square of `stdev_response` (line 279, with its `len > 1` guard). -/
def stdev_response_sq (sr : List (Option Trial)) : ℚ :=
  stat_stdev_sq (response_times sr)

/-- Decidable form of the outlier filter condition
`t <= mean_response + 3 * stdev_response` (line 280), with `v` the squared
standard deviation; `keep_3sigma_iff_sqrt` proves it equivalent to the
square-root formulation. -/
def keep_3sigma (m v t : ℚ) : Bool :=
  decide (t ≤ m) || decide ((t - m) ^ 2 ≤ 9 * v)

/-- The `filtered_times` list (line 280). -/
def filtered_times (sr : List (Option Trial)) : List ℚ :=
  (response_times sr).filter (keep_3sigma (mean_response sr) (stdev_response_sq sr))

/-- The statistics dict returned by `_test_llm_performance` on success
(lines 286-301); standard deviations are stored squared. -/
structure LLMStats where
  avg_response_time : ℚ
  min_response_time : ℚ
  max_response_time : ℚ
  avg_first_token_time : ℚ
  min_first_token_time : ℚ
  max_first_token_time : ℚ
  std_first_token_sq : ℚ
  std_response_sq : ℚ
  avg_response_length : ℚ
  avg_tokens_per_second : ℚ
  success_rate : ℚ
  deriving DecidableEq, Repr

/-- Outcome of `_test_llm_performance`: either the error dict
`{"errors": 1}` or the success dict with `errors == 0`. -/
inductive LLMReport where
  | failure : LLMReport
  | success : LLMStats → LLMReport
  deriving DecidableEq, Repr

/-- The `errors` field of the returned dict. -/
def LLMReport.errors : LLMReport → ℕ
  | .failure => 1
  | .success _ => 0

/-- The `avg_response_time` field of the returned dict, when present. -/
def report_avg_response_time : LLMReport → Option ℚ
  | .failure => none
  | .success s => some s.avg_response_time

/-- Aggregation tail of `_test_llm_performance` (lines 265-301): given the
number of test sentences and the per-sentence outcomes (`none` for a
sentence whose trial raised), return the backend's report. The empty-data
and insufficient-survivors branches return the error dict. -/
def test_llm_performance (num_sentences : ℕ) (sr : List (Option Trial)) :
    LLMReport :=
  if valid_results sr = [] then .failure
  else if ((filtered_times sr).length : ℚ) < (num_sentences : ℚ) * 0.5 then .failure
  else .success
    { avg_response_time := stat_mean (response_times sr)
      min_response_time := list_min (response_times sr)
      max_response_time := list_max (response_times sr)
      avg_first_token_time := stat_mean (first_token_times sr)
      min_first_token_time := list_min (first_token_times sr)
      max_first_token_time := list_max (first_token_times sr)
      std_first_token_sq := stat_stdev_sq (first_token_times sr)
      std_response_sq := stat_stdev_sq (response_times sr)
      avg_response_length := stat_mean (response_lengths sr)
      avg_tokens_per_second := stat_mean (tokens_per_second_list sr)
      success_rate := ((valid_results sr).length : ℚ) / (num_sentences : ℚ) }

/-! ## Combination scorer, performance_tester_en.py `_generate_combinations` -/

/-- The fields of an entry of `self.results["llm"]` read by the scorer. -/
structure LLMEntry where
  errors : ℕ
  avg_first_token_time : ℚ
  std_first_token : ℚ
  deriving DecidableEq, Repr

/-- The fields of an entry of `self.results["tts"]` read by the scorer. -/
structure TTSEntry where
  errors : ℕ
  avg_synthesis_time : ℚ
  deriving DecidableEq, Repr

/-- The fields of an entry of `self.results["stt"]` read by the scorer. -/
structure STTEntry where
  errors : ℕ
  avg_processing_time : ℚ
  deriving DecidableEq, Repr

/-- One entry of `self.results["combinations"]` (lines 466-477), with the
`details` sub-dict inlined. -/
structure Combo where
  llm : String
  tts : String
  stt : String
  score : ℚ
  llm_first_token : ℚ
  llm_stability : ℚ
  tts_time : ℚ
  stt_time : ℚ
  deriving DecidableEq, Repr

/-- The `valid_llms` list (lines 427-430): `errors == 0 and avg_first_token_time >= 0.05`.
The insertion-ordered dict is modelled as an association list. -/
def valid_llms (llms : List (String × LLMEntry)) : List (String × LLMEntry) :=
  llms.filter (fun p => p.2.errors == 0 && decide ((0.05 : ℚ) ≤ p.2.avg_first_token_time))

/-- The `valid_tts` list (line 431). -/
def valid_tts (tts : List (String × TTSEntry)) : List (String × TTSEntry) :=
  tts.filter (fun p => p.2.errors == 0)

/-- The `valid_stt` list (line 432). -/
def valid_stt (stt : List (String × STTEntry)) : List (String × STTEntry) :=
  stt.filter (fun p => p.2.errors == 0)

/-- Python `min(l) if l else 1`, the baseline idiom of lines 435-446. -/
def min_or_one (l : List ℚ) : ℚ := (l.min?).getD 1

/-- Baseline `min_first_token` (lines 435-438). -/
def min_first_token (llms : List (String × LLMEntry)) : ℚ :=
  min_or_one ((valid_llms llms).map (fun p => p.2.avg_first_token_time))

/-- Baseline `min_tts_time` (lines 439-442). -/
def min_tts_time (tts : List (String × TTSEntry)) : ℚ :=
  min_or_one ((valid_tts tts).map (fun p => p.2.avg_synthesis_time))

/-- Baseline `min_stt_time` (lines 443-446). -/
def min_stt_time (stt : List (String × STTEntry)) : ℚ :=
  min_or_one ((valid_stt stt).map (fun p => p.2.avg_processing_time))

/-- Loop body of `_generate_combinations` (lines 451-477): the combination
dict appended for one `(llm, tts, stt)` triple. -/
def score_combo (minFT minTTS minSTT : ℚ) (l : String × LLMEntry)
    (t : String × TTSEntry) (s : String × STTEntry) : Combo :=
  let llm_score := l.2.avg_first_token_time / minFT
  let tts_score := t.2.avg_synthesis_time / minTTS
  let stt_score := s.2.avg_processing_time / minSTT
  let llm_stability := l.2.std_first_token / l.2.avg_first_token_time
  let llm_final_score := llm_score * 0.7 + llm_stability * 0.3
  { llm := l.1
    tts := t.1
    stt := s.1
    score := llm_final_score * 0.7 + tts_score * 0.3 + stt_score * 0.3
    llm_first_token := l.2.avg_first_token_time
    llm_stability := llm_stability
    tts_time := t.2.avg_synthesis_time
    stt_time := s.2.avg_processing_time }

/-- The triple nested loop of lines 448-477, in iteration order. -/
def raw_combinations (llms : List (String × LLMEntry))
    (tts : List (String × TTSEntry)) (stt : List (String × STTEntry)) :
    List Combo :=
  (valid_llms llms).flatMap (fun l =>
    (valid_tts tts).flatMap (fun t =>
      (valid_stt stt).map (fun s =>
        score_combo (min_first_token llms) (min_tts_time tts) (min_stt_time stt)
          l t s)))

/-- Comparison used by `self.results["combinations"].sort(key=lambda x: x["score"])`. -/
def comboLE (a b : Combo) : Prop := a.score ≤ b.score

instance : DecidableRel comboLE := fun a b =>
  inferInstanceAs (Decidable (a.score ≤ b.score))

instance : IsTotal Combo comboLE := ⟨fun a b => le_total a.score b.score⟩

instance : IsTrans Combo comboLE := ⟨fun _ _ _ h1 h2 => le_trans h1 h2⟩

/-- Python `list.sort` is a stable ascending sort by the key; a stable sort
is extensionally unique, so it is modelled by stable insertion sort. -/
def sort_by_score (l : List Combo) : List Combo := l.insertionSort comboLE

/-- Method `_generate_combinations` (lines 425-480): build all combination dicts,
then sort ascending by score. -/
def generate_combinations (llms : List (String × LLMEntry))
    (tts : List (String × TTSEntry)) (stt : List (String × STTEntry)) :
    List Combo :=
  sort_by_score (raw_combinations llms tts stt)

/-! ## Concurrent dispatcher and run coordinator, performance_tester_en.py -/

/-- Capability kind, the `type` field of the result dicts. -/
inductive Kind where
  | llm : Kind
  | tts : Kind
  | stt : Kind
  deriving DecidableEq, Repr

/-- A result dict returned by one unit of work: name, kind, error count
and the remaining numeric summary fields (opaque payload here). -/
structure ResultDict where
  name : String
  kind : Kind
  errors : ℕ
  stats : List (String × ℚ)
  deriving DecidableEq, Repr

/-- One element of the list returned by
`asyncio.gather(*all_tasks, return_exceptions=True)` (line 686): either a
returned dict or an exception object. -/
inductive GatherItem where
  | dict : ResultDict → GatherItem
  | exc : String → GatherItem
  deriving DecidableEq, Repr

/-- The mutable `self.results` maps (minus `combinations`), as
insertion-ordered association lists. -/
structure Results where
  llm : List (String × ResultDict)
  tts : List (String × ResultDict)
  stt : List (String × ResultDict)
  deriving DecidableEq, Repr

/-- The `self.results` maps as initialised in `__init__` (line 49). -/
def emptyResults : Results := ⟨[], [], []⟩

/-- Python dict assignment `m[k] = v` on an association list. -/
def upsert (m : List (String × ResultDict)) (k : String) (v : ResultDict) :
    List (String × ResultDict) :=
  if m.any (fun p => p.1 == k) then
    m.map (fun p => if p.1 == k then (k, v) else p)
  else m ++ [(k, v)]

/-- One iteration of the result-collection loop of `run` (lines 689-697):
exceptions and dicts with `errors != 0` are skipped, error-free dicts are
stored under their name in the map of their kind. -/
def collect_step (r : Results) (item : GatherItem) : Results :=
  match item with
  | .exc _ => r
  | .dict d =>
    if d.errors = 0 then
      match d.kind with
      | .llm => { r with llm := upsert r.llm d.name d }
      | .tts => { r with tts := upsert r.tts d.name d }
      | .stt => { r with stt := upsert r.stt d.name d }
    else r

/-- The whole collection loop of `run` (lines 689-697). -/
def collect_results (items : List GatherItem) : Results :=
  items.foldl collect_step emptyResults

/-- The `try ... except` boundary wrapped around every
`_test_*_performance` body: a body that raises is converted into the
error dict `{"name": ..., "type": ..., "errors": 1}` (lines 148-150,
218-220, 302-304). -/
def unit_boundary (name : String) (kind : Kind)
    (body : Except String ResultDict) : ResultDict :=
  match body with
  | .ok d => d
  | .error _ => { name := name, kind := kind, errors := 1, stats := [] }

/-- Run a list of units of work: each yields a dict (its boundary catches
every exception), producing the gather output list. -/
def run_units (units : List (String × Kind × Except String ResultDict)) :
    List GatherItem :=
  units.map (fun u => .dict (unit_boundary u.1 u.2.1 u.2.2))

/-- One unit of work with its wall-clock duration, for the timeout model. -/
structure WorkUnit where
  name : String
  kind : Kind
  duration : ℚ
  outcome : Except String ResultDict
  deriving Repr

/-- Completion time of `asyncio.gather(*all_tasks)`: all units run
concurrently and the gather resolves only when the last one finishes. -/
def gather_finish_time (units : List WorkUnit) : ℚ :=
  ((units.map WorkUnit.duration).max?).getD 0

/-- The result maps `run` (lines 686-697) holds after its collection loop:
the loop runs only after the gather over all tasks has resolved. -/
def run_results (units : List WorkUnit) : Results :=
  collect_results (units.map (fun u => .dict (unit_boundary u.name u.kind u.outcome)))

/-- Method `run_with_timeout` (lines 605-617): `asyncio.wait_for(self.run(), t)`
cancels `run()` when the budget elapses before the gather resolves; the
`TimeoutError` branch then builds the report from `self.results`, which
the cancelled `run()` never populated (its collection loop sits after the
gather over all tasks). -/
def run_with_timeout (budget : ℚ) (units : List WorkUnit) : Results :=
  if gather_finish_time units ≤ budget then run_results units else emptyResults

/-! ## Backend-config eligibility in `run` (lines 627-674) -/

/-- A backend config dict; only the string-valued credential fields matter
for eligibility. -/
def Config := List (String × String)

/-- Python `config.get(k)` restricted to string fields. -/
def cfg_get (c : Config) (k : String) : Option String :=
  ((c : List (String × String)).find? (fun p => p.1 == k)).map Prod.snd

/-- Python `config.get(k, d)`. -/
def cfg_getD (c : Config) (k d : String) : String := (cfg_get c k).getD d

/-- The placeholder markers checked for TTS/ASR token fields (lines 651, 666). -/
def placeholder_marks : List String := ["你的", "placeholder", "your_"]

/-- The markers checked for LLM `api_key` (line 637). -/
def llm_api_key_marks : List String := ["你的", "placeholder", "your_", "sk-xxx"]

/-- The markers checked for CozeLLM `bot_id`/`user_id` (lines 631-632). -/
def coze_marks : List String := ["你的", "your_"]

/-- Python `any(x in v for x in marks)`. -/
def has_mark (marks : List String) (v : String) : Bool :=
  marks.any (fun m => pyIn m v)

/-- The TTS/ASR skip test of `run` (lines 648-653 and 663-668):
`field in config and any(x in config[field] for x in marks)` over the
three token fields. -/
def token_placeholder (c : Config) : Bool :=
  ["access_token", "api_key", "token"].any (fun f =>
    match cfg_get c f with
    | some v => has_mark placeholder_marks v
    | none => false)

/-- The LLM skip test of `run` (lines 630-640): CozeLLM checks
`bot_id`/`user_id`, every other backend checks `api_key`. -/
def llm_skip_check (name : String) (c : Config) : Bool :=
  if name == "CozeLLM" then
    has_mark coze_marks (cfg_getD c "bot_id" "") ||
      has_mark coze_marks (cfg_getD c "user_id" "")
  else
    match cfg_get c "api_key" with
    | some v => has_mark llm_api_key_marks v
    | none => false

/-- Names of the LLM test tasks `run` launches (lines 627-643). -/
def llm_task_names (llmCfg : List (String × Config)) : List String :=
  (llmCfg.filter (fun p => !(llm_skip_check p.1 p.2))).map Prod.fst

/-- Names of the TTS test tasks `run` launches (lines 646-657). -/
def tts_task_names (ttsCfg : List (String × Config)) : List String :=
  (ttsCfg.filter (fun p => !(token_placeholder p.2))).map Prod.fst

/-- Names of the ASR test tasks `run` launches (lines 660-674); no task is
launched when no test audio file is loaded. -/
def stt_task_names (asrCfg : List (String × Config)) (wav_count : ℕ) :
    List String :=
  if 1 ≤ wav_count then
    (asrCfg.filter (fun p => !(token_placeholder p.2))).map Prod.fst
  else []

/-! ## Concrete inputs used by counterexamples and witnesses -/

/-- A raw measurement triple of `_test_single_sentence`: optional first
chunk latency, total latency, response length. -/
def trial_of_raw (m : Option ℚ × ℚ × ℕ) : Trial :=
  single_sentence_trial m.1 m.2.1 m.2.2

/-- Twelve one-second trials and one hundred-second outlier trial. -/
def c1_input : List (Option Trial) :=
  [some (single_sentence_trial (some 1) 1 1),
   some (single_sentence_trial (some 1) 1 1),
   some (single_sentence_trial (some 1) 1 1),
   some (single_sentence_trial (some 1) 1 1),
   some (single_sentence_trial (some 1) 1 1),
   some (single_sentence_trial (some 1) 1 1),
   some (single_sentence_trial (some 1) 1 1),
   some (single_sentence_trial (some 1) 1 1),
   some (single_sentence_trial (some 1) 1 1),
   some (single_sentence_trial (some 1) 1 1),
   some (single_sentence_trial (some 1) 1 1),
   some (single_sentence_trial (some 1) 1 1),
   some (single_sentence_trial (some 100) 100 1)]

/-- Two equal-latency trials, one with no detected first token. -/
def c1_witness_input : List (Option Trial) :=
  [some (single_sentence_trial (some 1) 2 4),
   some (single_sentence_trial none 2 4)]

/-- The success dict `_test_llm_performance` produces on `c1_witness_input`
with two test sentences. -/
def c1_witness_stats : LLMStats :=
  { avg_response_time := 2
    min_response_time := 2
    max_response_time := 2
    avg_first_token_time := 3/2
    min_first_token_time := 1
    max_first_token_time := 2
    std_first_token_sq := 1/2
    std_response_sq := 0
    avg_response_length := 4
    avg_tokens_per_second := 2
    success_rate := 1 }

/-- Five sentences of which only two produced valid trials. -/
def c6_witness_input : List (Option Trial) :=
  [some (single_sentence_trial (some 1) 1 1),
   some (single_sentence_trial (some 1) 1 1),
   none, none, none]

/-- Two raw trials whose per-trial throughput mean (3/2) differs from the
ratio of sums (5/3). -/
def c7_witness_raw : List (Option (Option ℚ × ℚ × ℕ)) :=
  [some (some 1, 1, 1), some (some 1, 2, 4)]

/-- The success dict `_test_llm_performance` produces on the trials of
`c7_witness_raw` with two test sentences. -/
def c7_witness_stats : LLMStats :=
  { avg_response_time := 3/2
    min_response_time := 1
    max_response_time := 2
    avg_first_token_time := 1
    min_first_token_time := 1
    max_first_token_time := 1
    std_first_token_sq := 0
    std_response_sq := 1/2
    avg_response_length := 5/2
    avg_tokens_per_second := 3/2
    success_rate := 1 }

/-- An eligible LLM entry for the scorer witnesses. -/
def c3_llms : List (String × LLMEntry) := [("L", ⟨0, 1/10, 1/100⟩)]

/-- One error-free TTS entry. -/
def c3_tts : List (String × TTSEntry) := [("T", ⟨0, 2⟩)]

/-- One error-free STT entry. -/
def c3_stt : List (String × STTEntry) := [("S", ⟨0, 3⟩)]

/-- The single combination generated from `c3_llms`, `c3_tts`, `c3_stt`. -/
def c3_combo : Combo :=
  { llm := "L", tts := "T", stt := "S", score := 1111/1000,
    llm_first_token := 1/10, llm_stability := 1/10, tts_time := 2, stt_time := 3 }

/-- Two LLM entries with identical statistics, insertion order A then B. -/
def c9_llms_ab : List (String × LLMEntry) :=
  [("A", ⟨0, 1/10, 0⟩), ("B", ⟨0, 1/10, 0⟩)]

/-- The same two LLM entries, insertion order B then A. -/
def c9_llms_ba : List (String × LLMEntry) :=
  [("B", ⟨0, 1/10, 0⟩), ("A", ⟨0, 1/10, 0⟩)]

/-- A single error-free TTS entry for the reordering scenario. -/
def c9_tts : List (String × TTSEntry) := [("T", ⟨0, 1⟩)]

/-- A single error-free STT entry for the reordering scenario. -/
def c9_stt : List (String × STTEntry) := [("S", ⟨0, 1⟩)]

/-- Error-free LLM entries: one below the 0.05s first-token threshold, one
above it. -/
def c10_llms : List (String × LLMEntry) :=
  [("Fast", ⟨0, 1/100, 0⟩), ("Ok", ⟨0, 1/10, 0⟩)]

/-- An error-free result dict for the dispatcher model. -/
def ok_dict (nm : String) (k : Kind) : ResultDict := ⟨nm, k, 0, []⟩

/-- A one-second unit of work that returns an error-free dict. -/
def c2_unit1 : WorkUnit := ⟨"U1", .llm, 1, .ok (ok_dict "U1" .llm)⟩

/-- A second one-second unit of work. -/
def c2_unit2 : WorkUnit := ⟨"U2", .tts, 1, .ok (ok_dict "U2" .tts)⟩

/-- A five-second unit of work, longer than the 2 second budget. -/
def c2_unit3 : WorkUnit := ⟨"U3", .stt, 5, .ok (ok_dict "U3" .stt)⟩

/-- The three units of the claimed timeout scenario. -/
def c2_units : List WorkUnit := [c2_unit1, c2_unit2, c2_unit3]

/-- LLM configs: one with a placeholder api_key, one configured. -/
def c4_llm_cfgs : List (String × Config) :=
  [("BadLLM", [("api_key", "your_api_key_here")]),
   ("GoodLLM", [("api_key", "sk-proj-abc123")])]

/-- TTS configs: one with a placeholder access_token, one configured. -/
def c4_tts_cfgs : List (String × Config) :=
  [("BadTTS", [("access_token", "placeholder_token")]),
   ("GoodTTS", [("access_token", "tok123")])]

/-- ASR configs: one with a placeholder token, one configured. -/
def c4_asr_cfgs : List (String × Config) :=
  [("BadASR", [("token", "你的token")]),
   ("GoodASR", [("token", "tok456")])]

/-! ## Helper lemmas -/

/-- Faithfulness of the square-free outlier filter: with `v` the squared
standard deviation, `keep_3sigma m v t` holds exactly when
`t <= m + 3 * sqrt v`, the comparison written in the source. -/
theorem keep_3sigma_iff_sqrt (m v t : ℚ) (hv : 0 ≤ v) :
    keep_3sigma m v t = true ↔ (t : ℝ) ≤ (m : ℝ) + 3 * Real.sqrt (v : ℝ) := by
  unfold keep_3sigma
  simp only [Bool.or_eq_true, decide_eq_true_iff]
  constructor
  · rintro (h | h)
    · have h1 : (t : ℝ) ≤ (m : ℝ) := by exact_mod_cast h
      have h2 : (0 : ℝ) ≤ 3 * Real.sqrt (v : ℝ) := by positivity
      linarith
    · have h2 : ((t : ℝ) - (m : ℝ)) ^ 2 ≤ 9 * (v : ℝ) := by exact_mod_cast h
      have h3 : (t : ℝ) - m ≤ Real.sqrt (((t : ℝ) - m) ^ 2) := by
        rw [Real.sqrt_sq_eq_abs]
        exact le_abs_self _
      have h4 : Real.sqrt (((t : ℝ) - m) ^ 2) ≤ Real.sqrt (9 * (v : ℝ)) :=
        Real.sqrt_le_sqrt h2
      have h5 : Real.sqrt (9 * (v : ℝ)) = 3 * Real.sqrt (v : ℝ) := by
        rw [show (9 : ℝ) * (v : ℝ) = 3 ^ 2 * (v : ℝ) by ring,
          Real.sqrt_mul (by positivity), Real.sqrt_sq (by norm_num)]
      linarith
  · intro h
    by_cases hm : t ≤ m
    · exact Or.inl hm
    · right
      push_neg at hm
      have hm2 : (m : ℝ) < (t : ℝ) := by exact_mod_cast hm
      have h1 : (t : ℝ) - m ≤ 3 * Real.sqrt (v : ℝ) := by linarith
      have hs : (0 : ℝ) ≤ Real.sqrt (v : ℝ) := Real.sqrt_nonneg _
      have h2 : ((t : ℝ) - m) ^ 2 ≤ (3 * Real.sqrt (v : ℝ)) ^ 2 := by
        have h0 : (0 : ℝ) ≤ (t : ℝ) - m := by linarith
        nlinarith
      have h3 : (3 * Real.sqrt ((v : ℝ))) ^ 2 = 9 * (v : ℝ) := by
        rw [mul_pow, Real.sq_sqrt (by exact_mod_cast hv)]
        norm_num
      have h4 : ((t : ℝ) - m) ^ 2 ≤ 9 * (v : ℝ) := by linarith
      exact_mod_cast h4

/-! ## C5 -/

/-- C5: both `_analyze_function_response` classifiers return their
intent-detected verdict exactly when the accumulated case-insensitive
substring score reaches 3 (intent-name matches weigh 3, domain keyword
matches 2, structural markers 1, scenario bonus vocabulary 2), and the
weather example response with keywords weather/temperature/forecast scores
4 and is classified as intent-detected. -/
theorem c5_response_classifier :
    (∀ r n, analyze_function_response r n = true ↔ 3 ≤ fc_score r n) ∧
    (∀ r kws, grid_analyze_function_response r kws = true ↔ 3 ≤ grid_score r kws) ∧
    grid_score "The weather today is sunny with temperature around 20 degrees."
      ["weather", "temperature", "forecast"] = 4 ∧
    grid_analyze_function_response
      "The weather today is sunny with temperature around 20 degrees."
      ["weather", "temperature", "forecast"] = true := by
  refine ⟨fun r n => ?_, fun r kws => ?_, ?_, ?_⟩
  · simp [analyze_function_response]
  · simp [grid_analyze_function_response]
  · decide
  · decide

/-! ## C6 -/

/-- C6: whenever fewer than half of the original trial count survives the
3-sigma outlier filter, `_test_llm_performance` returns the error dict
with error count 1, whatever the surviving statistics look like. -/
theorem c6_insufficient_survivors_error (n : ℕ) (sr : List (Option Trial))
    (h : ((filtered_times sr).length : ℚ) < (n : ℚ) * 0.5) :
    (test_llm_performance n sr).errors = 1 := by
  unfold test_llm_performance
  split_ifs with h1
  · rfl
  · rfl

/-- Witness for C6 at a concrete input: five sentences, two valid trials,
both surviving the filter, still below the 50 percent threshold. -/
theorem c6_insufficient_survivors_error_witness :
    ((filtered_times c6_witness_input).length : ℚ) < (5 : ℚ) * 0.5 ∧
    (test_llm_performance 5 c6_witness_input).errors = 1 := by
  have h : ((filtered_times c6_witness_input).length : ℚ) < (5 : ℚ) * 0.5 := by
    norm_num [c6_witness_input, filtered_times, response_times, valid_results,
      keep_3sigma, mean_response, stdev_response_sq, stat_stdev_sq, stat_mean,
      stat_variance, single_sentence_trial, List.filter]
  exact ⟨h, c6_insufficient_survivors_error 5 c6_witness_input h⟩

/-! ## C1 -/

/-- C1 is false on the code: on twelve 1-second trials plus one
100-second outlier (13 sentences), the outlier fails the
`mean + 3 * stdev` filter (12 of 13 survive), yet the reported
`avg_response_time` is the unfiltered mean 112/13, not the filtered
mean 1. -/
theorem c1_counterexample :
    report_avg_response_time (test_llm_performance 13 c1_input) = some (112/13) ∧
    (response_times c1_input).length = 13 ∧
    (filtered_times c1_input).length = 12 ∧
    stat_mean (filtered_times c1_input) = 1 ∧
    (112/13 : ℚ) ≠ 1 := by
  have hrt : response_times c1_input = [1, 1, 1, 1, 1, 1, 1, 1, 1, 1, 1, 1, 100] := by
    norm_num [c1_input, response_times, valid_results, single_sentence_trial]
  have hne : valid_results c1_input ≠ [] := by
    simp [c1_input, valid_results]
  have hmean : mean_response c1_input = 112/13 := by
    rw [mean_response, hrt]
    norm_num [stat_mean]
  have hvar : stdev_response_sq c1_input = 127413/169 := by
    rw [stdev_response_sq, hrt]
    norm_num [stat_stdev_sq, stat_variance, stat_mean]
  have hf : filtered_times c1_input = [1, 1, 1, 1, 1, 1, 1, 1, 1, 1, 1, 1] := by
    rw [filtered_times, hmean, hvar, hrt]
    norm_num [keep_3sigma, List.filter]
  have h1 : report_avg_response_time (test_llm_performance 13 c1_input) =
      some (112/13) := by
    unfold test_llm_performance
    split_ifs with ha hb
    · exact absurd ha hne
    · rw [hf] at hb
      norm_num at hb
    · show some (stat_mean (response_times c1_input)) = some (112/13)
      rw [hrt]
      norm_num [stat_mean]
  refine ⟨h1, ?_, ?_, ?_, by norm_num⟩
  · rw [hrt]
    rfl
  · rw [hf]
    rfl
  · rw [hf]
    norm_num [stat_mean]

/-- C1 (amended): the 3-sigma outlier filter only feeds the 50 percent
survival check; every summary field of a successful
`_test_llm_performance` report is computed over the full unfiltered
valid-trial lists (standard deviations stated via their squares). -/
theorem c1_amended_stats_over_unfiltered (n : ℕ) (sr : List (Option Trial))
    (s : LLMStats) (h : test_llm_performance n sr = .success s) :
    s.avg_response_time = stat_mean (response_times sr) ∧
    s.min_response_time = list_min (response_times sr) ∧
    s.max_response_time = list_max (response_times sr) ∧
    s.avg_first_token_time = stat_mean (first_token_times sr) ∧
    s.min_first_token_time = list_min (first_token_times sr) ∧
    s.max_first_token_time = list_max (first_token_times sr) ∧
    s.std_first_token_sq = stat_stdev_sq (first_token_times sr) ∧
    s.std_response_sq = stat_stdev_sq (response_times sr) ∧
    s.avg_response_length = stat_mean (response_lengths sr) ∧
    s.avg_tokens_per_second = stat_mean (tokens_per_second_list sr) := by
  unfold test_llm_performance at h
  split_ifs at h
  injection h with h2
  subst h2
  exact ⟨rfl, rfl, rfl, rfl, rfl, rfl, rfl, rfl, rfl, rfl⟩

/-- Witness for the amended C1 at a concrete two-trial input. -/
theorem c1_amended_stats_over_unfiltered_witness :
    test_llm_performance 2 c1_witness_input = .success c1_witness_stats ∧
    c1_witness_stats.avg_response_time = stat_mean (response_times c1_witness_input) := by
  have h : test_llm_performance 2 c1_witness_input = .success c1_witness_stats := by
    unfold test_llm_performance
    split_ifs with ha hb
    · exact absurd ha (by simp [c1_witness_input, valid_results])
    · exfalso
      revert hb
      norm_num [c1_witness_input, filtered_times, response_times, valid_results,
        keep_3sigma, mean_response, stdev_response_sq, stat_stdev_sq,
        stat_variance, stat_mean, single_sentence_trial, List.filter]
    · simp only [LLMReport.success.injEq]
      norm_num [c1_witness_input, c1_witness_stats, single_sentence_trial,
        valid_results, response_times, first_token_times, response_lengths,
        tokens_per_second_list, stat_stdev_sq, stat_variance, stat_mean,
        list_min, list_max, List.min?, List.max?, List.foldl, min_def, max_def,
        LLMStats.mk.injEq]
  exact ⟨h, (c1_amended_stats_over_unfiltered 2 c1_witness_input c1_witness_stats h).1⟩

/-! ## C7 -/

/-- Every member of `valid_results` of a run whose raw measurements are
mapped through `_test_single_sentence` is the trial of one raw triple. -/
theorem mem_valid_results_raw {t : Trial} :
    ∀ {raw : List (Option (Option ℚ × ℚ × ℕ))},
      t ∈ valid_results (raw.map (Option.map trial_of_raw)) →
      ∃ m, t = trial_of_raw m
  | [], ht => by
      have h0 : t ∈ ([] : List Trial) := ht
      simp at h0
  | some m :: rest, ht => by
      have h0 : t ∈ trial_of_raw m ::
          valid_results (rest.map (Option.map trial_of_raw)) := ht
      rcases List.mem_cons.mp h0 with h1 | h1
      · exact ⟨m, h1⟩
      · exact mem_valid_results_raw h1
  | none :: rest, ht => by
      have h0 : t ∈ valid_results (rest.map (Option.map trial_of_raw)) := ht
      exact mem_valid_results_raw h0

/-- C7: on success, the reported `avg_tokens_per_second` is the arithmetic
mean of the per-trial throughputs, and each per-trial throughput is the
trial's own `response_length / response_time` (0 when the latency is 0) —
not a ratio of sums. -/
theorem c7_tokens_per_second_per_trial (n : ℕ)
    (raw : List (Option (Option ℚ × ℚ × ℕ))) (s : LLMStats)
    (h : test_llm_performance n (raw.map (Option.map trial_of_raw)) = .success s) :
    s.avg_tokens_per_second =
      stat_mean ((valid_results (raw.map (Option.map trial_of_raw))).map
        Trial.tokens_per_second) ∧
    ∀ t ∈ valid_results (raw.map (Option.map trial_of_raw)),
      t.tokens_per_second =
        if 0 < t.response_time then t.response_length / t.response_time else 0 := by
  constructor
  · unfold test_llm_performance at h
    split_ifs at h
    injection h with h2
    subst h2
    rfl
  · intro t ht
    obtain ⟨m, rfl⟩ := mem_valid_results_raw ht
    rfl

/-- Witness for C7 at a concrete input where the per-trial mean (3/2)
differs from the ratio of sums (5/3); the code reports the former. -/
theorem c7_tokens_per_second_per_trial_witness :
    test_llm_performance 2 (c7_witness_raw.map (Option.map trial_of_raw)) =
      .success c7_witness_stats ∧
    stat_mean ((valid_results (c7_witness_raw.map (Option.map trial_of_raw))).map
      Trial.tokens_per_second) = 3/2 ∧
    c7_witness_stats.avg_tokens_per_second = 3/2 ∧
    (response_lengths (c7_witness_raw.map (Option.map trial_of_raw))).sum /
      (response_times (c7_witness_raw.map (Option.map trial_of_raw))).sum = 5/3 ∧
    ((3 : ℚ)/2) ≠ 5/3 := by
  have h : test_llm_performance 2 (c7_witness_raw.map (Option.map trial_of_raw)) =
      .success c7_witness_stats := by
    unfold test_llm_performance
    split_ifs with ha hb
    · exact absurd ha (by simp [c7_witness_raw, valid_results, Option.map, trial_of_raw])
    · exfalso
      revert hb
      norm_num [c7_witness_raw, trial_of_raw, filtered_times, response_times,
        valid_results, keep_3sigma, mean_response, stdev_response_sq,
        stat_stdev_sq, stat_variance, stat_mean, single_sentence_trial,
        List.filter, Option.map]
    · simp only [LLMReport.success.injEq]
      norm_num [c7_witness_raw, c7_witness_stats, trial_of_raw,
        single_sentence_trial, valid_results, response_times, first_token_times,
        response_lengths, tokens_per_second_list, stat_stdev_sq, stat_variance,
        stat_mean, list_min, list_max, List.min?, List.max?, List.foldl, min_def,
        max_def, Option.map, LLMStats.mk.injEq]
  have h2 : stat_mean ((valid_results (c7_witness_raw.map (Option.map trial_of_raw))).map
      Trial.tokens_per_second) = 3/2 := by
    norm_num [c7_witness_raw, trial_of_raw, single_sentence_trial, valid_results,
      stat_mean, Option.map]
  have h3 := (c7_tokens_per_second_per_trial 2 c7_witness_raw c7_witness_stats h).1
  refine ⟨h, h2, by rw [h3, h2], ?_, by norm_num⟩
  norm_num [c7_witness_raw, trial_of_raw, single_sentence_trial, valid_results,
    response_lengths, response_times, Option.map]

/-! ## Combination scorer lemmas -/

/-- The left fold of `min` is below its initial value. -/
theorem foldl_min_le_init (x : ℚ) (l : List ℚ) : l.foldl min x ≤ x := by
  induction l generalizing x with
  | nil => exact le_refl x
  | cons a l ih =>
    calc (a :: l).foldl min x = l.foldl min (min x a) := rfl
    _ ≤ min x a := ih _
    _ ≤ x := min_le_left _ _

/-- The left fold of `min` is below every list element. -/
theorem foldl_min_le_mem {y : ℚ} : ∀ {l : List ℚ} (x : ℚ), y ∈ l → l.foldl min x ≤ y
  | [], _, h => absurd h (List.not_mem_nil y)
  | a :: l, x, h => by
    rcases List.mem_cons.mp h with h1 | h1
    · subst h1
      calc (y :: l).foldl min x = l.foldl min (min x y) := rfl
      _ ≤ min x y := foldl_min_le_init _ _
      _ ≤ y := min_le_right _ _
    · exact foldl_min_le_mem (min x a) h1

/-- The left fold of `min` is the initial value or a list element. -/
theorem foldl_min_mem : ∀ (l : List ℚ) (x : ℚ), l.foldl min x ∈ x :: l
  | [], x => List.mem_singleton_self x
  | a :: l, x => by
    have he : (a :: l).foldl min x = l.foldl min (min x a) := rfl
    rw [he]
    rcases List.mem_cons.mp (foldl_min_mem l (min x a)) with h1 | h1
    · rcases min_choice x a with h2 | h2
      · rw [h1, h2]
        exact List.mem_cons_self x (a :: l)
      · rw [h1, h2]
        exact List.mem_cons_of_mem x (List.mem_cons_self a l)
    · exact List.mem_cons_of_mem x (List.mem_cons_of_mem a h1)

/-- The fold of `min` over `x :: l` is below every element of `x :: l`. -/
theorem foldl_min_head_le {l : List ℚ} {y : ℚ} (x : ℚ) (h : y ∈ x :: l) :
    l.foldl min x ≤ y := by
  rcases List.mem_cons.mp h with h1 | h1
  · subst h1
    exact foldl_min_le_init y l
  · exact foldl_min_le_mem x h1

/-- Python `min(l) if l else 1` is invariant under permutation of `l`. -/
theorem min_or_one_perm {l1 l2 : List ℚ} (h : l1.Perm l2) :
    min_or_one l1 = min_or_one l2 := by
  cases l1 with
  | nil =>
    have h2 : l2 = [] := List.Perm.eq_nil h.symm
    subst h2
    rfl
  | cons x xs =>
    cases l2 with
    | nil => exact absurd (List.Perm.eq_nil h) (List.cons_ne_nil x xs)
    | cons y ys =>
      have e1 : min_or_one (x :: xs) = xs.foldl min x := rfl
      have e2 : min_or_one (y :: ys) = ys.foldl min y := rfl
      rw [e1, e2]
      apply le_antisymm
      · exact foldl_min_head_le x (h.mem_iff.mpr (foldl_min_mem ys y))
      · exact foldl_min_head_le y (h.mem_iff.mp (foldl_min_mem xs x))

/-- Congruence of `flatMap` along a permutation of the list and pointwise
permutations of the mapped lists. -/
theorem flatMap_perm_left {α β : Type} {f g : α → List β}
    (hfg : ∀ a, (f a).Perm (g a)) :
    ∀ l : List α, (l.flatMap f).Perm (l.flatMap g)
  | [] => List.Perm.refl _
  | a :: l => by
    rw [List.flatMap_cons, List.flatMap_cons]
    exact List.Perm.append (hfg a) (flatMap_perm_left hfg l)

/-- Full congruence of `flatMap` under permutations. -/
theorem flatMap_perm {α β : Type} {l1 l2 : List α} {f g : α → List β}
    (h : l1.Perm l2) (hfg : ∀ a, (f a).Perm (g a)) :
    (l1.flatMap f).Perm (l2.flatMap g) :=
  (flatMap_perm_left hfg l1).trans (List.Perm.flatMap_right g h)

/-- In an association list with no duplicate keys, a key determines its value. -/
theorem assoc_key_unique {α : Type} {l : List (String × α)}
    (hn : (l.map Prod.fst).Nodup) {k : String} {a b : α}
    (ha : (k, a) ∈ l) (hb : (k, b) ∈ l) : a = b := by
  induction l with
  | nil => exact absurd ha (List.not_mem_nil _)
  | cons p l ih =>
    rw [List.map_cons, List.nodup_cons] at hn
    rcases List.mem_cons.mp ha with h1 | h1 <;> rcases List.mem_cons.mp hb with h2 | h2
    · rw [← h2] at h1
      injection h1 with h3 h4
    · exfalso
      apply hn.1
      have h3 : ((k, b).fst) ∈ l.map Prod.fst := List.mem_map_of_mem Prod.fst h2
      rw [← h1]
      exact h3
    · exfalso
      apply hn.1
      have h3 : ((k, a).fst) ∈ l.map Prod.fst := List.mem_map_of_mem Prod.fst h1
      rw [← h2]
      exact h3
    · exact ih hn.2 h1 h2

/-! ## C3 -/

/-- C3: every generated combination carries the score
`0.7 * (0.7 * llm_score + 0.3 * llm_stability) + 0.3 * tts_score +
0.3 * stt_score` with each sub-score normalised by the minimum of its
kind, and the combination list is sorted ascending by score. -/
theorem c3_combination_scoring (llms : List (String × LLMEntry))
    (tts : List (String × TTSEntry)) (stt : List (String × STTEntry)) :
    List.Sorted comboLE (generate_combinations llms tts stt) ∧
    ∀ c ∈ generate_combinations llms tts stt,
      ∃ le te se, (c.llm, le) ∈ llms ∧ (c.tts, te) ∈ tts ∧ (c.stt, se) ∈ stt ∧
        c.score =
          0.7 * (0.7 * (le.avg_first_token_time / min_first_token llms)
              + 0.3 * (le.std_first_token / le.avg_first_token_time))
            + 0.3 * (te.avg_synthesis_time / min_tts_time tts)
            + 0.3 * (se.avg_processing_time / min_stt_time stt) := by
  constructor
  · exact List.sorted_insertionSort comboLE _
  · intro c hc
    unfold generate_combinations sort_by_score at hc
    have hc2 : c ∈ raw_combinations llms tts stt :=
      ((List.perm_insertionSort comboLE _).mem_iff).mp hc
    unfold raw_combinations at hc2
    rcases List.mem_flatMap.mp hc2 with ⟨l, hl, hc3⟩
    rcases List.mem_flatMap.mp hc3 with ⟨t, ht, hc4⟩
    rcases List.mem_map.mp hc4 with ⟨s, hs, rfl⟩
    refine ⟨l.2, t.2, s.2, ?_, ?_, ?_, ?_⟩
    · exact (List.mem_filter.mp hl).1
    · exact (List.mem_filter.mp ht).1
    · exact (List.mem_filter.mp hs).1
    · show (score_combo (min_first_token llms) (min_tts_time tts)
        (min_stt_time stt) l t s).score = _
      simp only [score_combo]
      ring

/-- Witness for C3 at a concrete singleton input. -/
theorem c3_combination_scoring_witness :
    c3_combo ∈ generate_combinations c3_llms c3_tts c3_stt ∧
    ∃ le te se, (c3_combo.llm, le) ∈ c3_llms ∧ (c3_combo.tts, te) ∈ c3_tts ∧
      (c3_combo.stt, se) ∈ c3_stt ∧
      c3_combo.score =
        0.7 * (0.7 * (le.avg_first_token_time / min_first_token c3_llms)
            + 0.3 * (le.std_first_token / le.avg_first_token_time))
          + 0.3 * (te.avg_synthesis_time / min_tts_time c3_tts)
          + 0.3 * (se.avg_processing_time / min_stt_time c3_stt) := by
  have hmem : c3_combo ∈ generate_combinations c3_llms c3_tts c3_stt := by
    norm_num [generate_combinations, sort_by_score, raw_combinations, valid_llms,
      valid_tts, valid_stt, score_combo, min_first_token, min_tts_time,
      min_stt_time, min_or_one, List.min?, List.foldl, List.insertionSort,
      List.orderedInsert, c3_llms, c3_tts, c3_stt, c3_combo, List.flatMap,
      Combo.mk.injEq]
  exact ⟨hmem, (c3_combination_scoring c3_llms c3_tts c3_stt).2 c3_combo hmem⟩

/-! ## C9 -/

/-- C9 is false on the code: with two LLM entries of identical statistics,
swapping their insertion order swaps the positions of the two equal-score
combinations, because Python dicts iterate in insertion order and the sort
is stable. -/
theorem c9_counterexample :
    c9_llms_ab.Perm c9_llms_ba ∧
    (generate_combinations c9_llms_ab c9_tts c9_stt).map Combo.llm = ["A", "B"] ∧
    (generate_combinations c9_llms_ba c9_tts c9_stt).map Combo.llm = ["B", "A"] ∧
    (["A", "B"] : List String) ≠ ["B", "A"] := by
  refine ⟨List.Perm.swap _ _ _, ?_, ?_, by simp⟩ <;>
    norm_num [generate_combinations, sort_by_score, raw_combinations, valid_llms,
      valid_tts, valid_stt, score_combo, min_first_token, min_tts_time,
      min_stt_time, min_or_one, List.min?, List.foldl, List.insertionSort,
      List.orderedInsert, c9_llms_ab, c9_llms_ba, c9_tts, c9_stt, List.flatMap,
      comboLE]

/-- C9 (amended): permuting the insertion order of the input result maps
yields a combination list that is a permutation of the original, both
lists are sorted ascending by score and carry the identical score
sequence; only the relative order of equal-score combinations (which
follow generation order) can differ. -/
theorem c9_perm_invariance_up_to_ties
    (l1 l2 : List (String × LLMEntry)) (t1 t2 : List (String × TTSEntry))
    (s1 s2 : List (String × STTEntry))
    (hl : l1.Perm l2) (ht : t1.Perm t2) (hs : s1.Perm s2) :
    (generate_combinations l1 t1 s1).Perm (generate_combinations l2 t2 s2) ∧
    List.Sorted comboLE (generate_combinations l1 t1 s1) ∧
    List.Sorted comboLE (generate_combinations l2 t2 s2) ∧
    (generate_combinations l1 t1 s1).map Combo.score =
      (generate_combinations l2 t2 s2).map Combo.score := by
  have hvl : (valid_llms l1).Perm (valid_llms l2) := hl.filter _
  have hvt : (valid_tts t1).Perm (valid_tts t2) := ht.filter _
  have hvs : (valid_stt s1).Perm (valid_stt s2) := hs.filter _
  have hminL : min_first_token l1 = min_first_token l2 :=
    min_or_one_perm (hvl.map _)
  have hminT : min_tts_time t1 = min_tts_time t2 := min_or_one_perm (hvt.map _)
  have hminS : min_stt_time s1 = min_stt_time s2 := min_or_one_perm (hvs.map _)
  have hraw : (raw_combinations l1 t1 s1).Perm (raw_combinations l2 t2 s2) := by
    unfold raw_combinations
    rw [hminL, hminT, hminS]
    exact flatMap_perm hvl (fun l => flatMap_perm hvt (fun t => hvs.map _))
  have hperm : (generate_combinations l1 t1 s1).Perm
      (generate_combinations l2 t2 s2) := by
    unfold generate_combinations sort_by_score
    exact ((List.perm_insertionSort comboLE _).trans hraw).trans
      (List.perm_insertionSort comboLE _).symm
  have hs1 : List.Sorted comboLE (generate_combinations l1 t1 s1) :=
    List.sorted_insertionSort comboLE _
  have hs2 : List.Sorted comboLE (generate_combinations l2 t2 s2) :=
    List.sorted_insertionSort comboLE _
  refine ⟨hperm, hs1, hs2, ?_⟩
  have hm1 : List.Pairwise (α := ℚ) (· ≤ ·)
      ((generate_combinations l1 t1 s1).map Combo.score) := by
    rw [List.pairwise_map]
    exact hs1
  have hm2 : List.Pairwise (α := ℚ) (· ≤ ·)
      ((generate_combinations l2 t2 s2).map Combo.score) := by
    rw [List.pairwise_map]
    exact hs2
  exact List.eq_of_perm_of_sorted (hperm.map Combo.score) hm1 hm2

/-- Witness for the amended C9 at a concrete pair of permuted inputs. -/
theorem c9_perm_invariance_up_to_ties_witness :
    c9_llms_ab.Perm c9_llms_ba ∧
    (generate_combinations c9_llms_ab c9_tts c9_stt).map Combo.score =
      (generate_combinations c9_llms_ba c9_tts c9_stt).map Combo.score := by
  have hl : c9_llms_ab.Perm c9_llms_ba := List.Perm.swap _ _ _
  exact ⟨hl, (c9_perm_invariance_up_to_ties c9_llms_ab c9_llms_ba c9_tts c9_tts
    c9_stt c9_stt hl (List.Perm.refl _) (List.Perm.refl _)).2.2.2⟩

/-! ## C10 -/

/-- C10: every generated combination draws its LLM from an entry with
errors = 0 and avg_first_token_time at least 0.05 (hence positive, so the
stability division is well-defined), and an error-free LLM entry whose
average first-token latency is below 0.05 appears in no combination. -/
theorem c10_combination_llm_eligibility (llms : List (String × LLMEntry))
    (tts : List (String × TTSEntry)) (stt : List (String × STTEntry)) :
    (∀ c ∈ generate_combinations llms tts stt,
      ∃ e, (c.llm, e) ∈ llms ∧ e.errors = 0 ∧
        (0.05 : ℚ) ≤ e.avg_first_token_time ∧ 0 < e.avg_first_token_time) ∧
    (∀ name e, (name, e) ∈ llms → e.errors = 0 → e.avg_first_token_time < 0.05 →
      (llms.map Prod.fst).Nodup →
      ∀ c ∈ generate_combinations llms tts stt, c.llm ≠ name) := by
  have hmain : ∀ c ∈ generate_combinations llms tts stt,
      ∃ e, (c.llm, e) ∈ llms ∧ e.errors = 0 ∧
        (0.05 : ℚ) ≤ e.avg_first_token_time ∧ 0 < e.avg_first_token_time := by
    intro c hc
    unfold generate_combinations sort_by_score at hc
    have hc2 : c ∈ raw_combinations llms tts stt :=
      ((List.perm_insertionSort comboLE _).mem_iff).mp hc
    unfold raw_combinations at hc2
    rcases List.mem_flatMap.mp hc2 with ⟨l, hl, hc3⟩
    rcases List.mem_flatMap.mp hc3 with ⟨t, ht, hc4⟩
    rcases List.mem_map.mp hc4 with ⟨s, hs, rfl⟩
    have hl2 := List.mem_filter.mp hl
    have hcond := hl2.2
    simp only [Bool.and_eq_true, beq_iff_eq, decide_eq_true_iff] at hcond
    exact ⟨l.2, hl2.1, hcond.1, hcond.2,
      lt_of_lt_of_le (by norm_num) hcond.2⟩
  refine ⟨hmain, ?_⟩
  intro name e he he0 hlt hnd c hc heq
  rcases hmain c hc with ⟨e2, he2, he20, h05, hpos⟩
  rw [heq] at he2
  have h3 : e2 = e := assoc_key_unique hnd he2 he
  rw [h3] at h05
  exact absurd hlt (not_lt.mpr h05)

/-- Witness for C10: an error-free LLM entry with first-token average
0.01 is excluded from every combination of a concrete run. -/
theorem c10_combination_llm_eligibility_witness :
    (("Fast", (⟨0, 1/100, 0⟩ : LLMEntry)) ∈ c10_llms) ∧
    ((⟨0, 1/100, 0⟩ : LLMEntry)).errors = 0 ∧
    ((⟨0, 1/100, 0⟩ : LLMEntry)).avg_first_token_time < 0.05 ∧
    (c10_llms.map Prod.fst).Nodup ∧
    ∀ c ∈ generate_combinations c10_llms c3_tts c3_stt, c.llm ≠ "Fast" := by
  refine ⟨by simp [c10_llms], rfl, by norm_num, by simp [c10_llms], ?_⟩
  exact (c10_combination_llm_eligibility c10_llms c3_tts c3_stt).2 "Fast"
    ⟨0, 1/100, 0⟩ (by simp [c10_llms]) rfl (by norm_num) (by simp [c10_llms])

/-! ## C8 -/

/-- C8: a unit of work whose body raises is converted at its boundary into
a dict with error count 1, and the collected result maps over any gathered
list containing such a failing unit equal those collected without it — the
failure never disturbs any sibling result. -/
theorem c8_failure_isolation
    (pre post : List (String × Kind × Except String ResultDict))
    (n : String) (k : Kind) (e : String) :
    (unit_boundary n k (.error e)).errors = 1 ∧
    collect_results (run_units (pre ++ (n, k, .error e) :: post)) =
      collect_results (run_units (pre ++ post)) := by
  constructor
  · rfl
  · unfold collect_results run_units
    rw [List.map_append, List.map_cons, List.map_append,
      List.foldl_append, List.foldl_cons, List.foldl_append]
    rfl

/-! ## C2 -/

/-- C2 describes intent the code does not implement: with a 2-second
budget and three units lasting 1s, 1s and 5s, all returning error-free
dicts, `run_with_timeout` reports no results at all — `run` stores results
only after the gather over every task resolves, so cancellation empties
the report instead of keeping the two completed probes. -/
theorem c2_timeout_empty_report :
    run_with_timeout 2 c2_units = emptyResults ∧
    c2_unit1.duration ≤ 2 ∧ c2_unit2.duration ≤ 2 ∧ ¬(c2_unit3.duration ≤ 2) ∧
    (run_results [c2_unit1, c2_unit2]).llm.length +
      (run_results [c2_unit1, c2_unit2]).tts.length +
      (run_results [c2_unit1, c2_unit2]).stt.length = 2 ∧
    (run_with_timeout 2 c2_units).llm.length +
      (run_with_timeout 2 c2_units).tts.length +
      (run_with_timeout 2 c2_units).stt.length = 0 := by
  have hfin : ¬ gather_finish_time c2_units ≤ 2 := by
    norm_num [gather_finish_time, c2_units, c2_unit1, c2_unit2, c2_unit3,
      List.max?, List.foldl, max_def]
  have h1 : run_with_timeout 2 c2_units = emptyResults := by
    unfold run_with_timeout
    rw [if_neg hfin]
  have h2 : (run_results [c2_unit1, c2_unit2]).llm.length +
      (run_results [c2_unit1, c2_unit2]).tts.length +
      (run_results [c2_unit1, c2_unit2]).stt.length = 2 := by
    norm_num [run_results, collect_results, collect_step, unit_boundary,
      upsert, emptyResults, ok_dict, c2_unit1, c2_unit2, List.foldl]
  refine ⟨h1, by norm_num [c2_unit1], by norm_num [c2_unit2],
    by norm_num [c2_unit3], h2, ?_⟩
  rw [h1]
  rfl

/-! ## C4 helper lemmas -/

/-- Filtering away a key that no entry carries changes nothing. -/
theorem filter_ne_of_not_mem {α : Type} {l : List (String × α)} {nm : String}
    (h : nm ∉ l.map Prod.fst) : l.filter (fun p => p.1 != nm) = l := by
  induction l with
  | nil => rfl
  | cons p l ih =>
    have h2 : nm ∉ l.map Prod.fst := by
      intro hm
      exact h (by rw [List.map_cons]; exact List.mem_cons_of_mem _ hm)
    have h1 : (p.1 != nm) = true := by
      rw [bne_iff_ne]
      intro he
      exact h (by rw [List.map_cons, he]; exact List.mem_cons_self _ _)
    simp [List.filter_cons, h1, ih h2]

/-- A skipped entry's name is absent from the launched task names. -/
theorem task_names_not_mem {α : Type} (skipf : String × α → Bool)
    {cfg : List (String × α)} {nm : String} {c : α}
    (hnd : (cfg.map Prod.fst).Nodup) (hmem : (nm, c) ∈ cfg)
    (hskip : skipf (nm, c) = true) :
    nm ∉ (cfg.filter (fun p => !(skipf p))).map Prod.fst := by
  intro hin
  rcases List.mem_map.mp hin with ⟨p, hp, hp1⟩
  have hpf := List.mem_filter.mp hp
  have hp2 : (nm, p.2) ∈ cfg := by
    rw [← hp1]
    exact hpf.1
  have hc : p.2 = c := assoc_key_unique hnd hp2 hmem
  have hfalse : skipf p = false := by
    have h3 := hpf.2
    rwa [Bool.not_eq_true'] at h3
  have htrue : skipf p = true := by
    have hpeta : p = (nm, c) := by
      have he : p = (p.1, p.2) := rfl
      rw [he, hp1, hc]
    rw [hpeta]
    exact hskip
  rw [htrue] at hfalse
  exact Bool.noConfusion hfalse

/-- Removing a skipped entry from the configuration leaves the launched
task names unchanged. -/
theorem task_names_filter_out {α : Type} (skipf : String × α → Bool)
    {cfg : List (String × α)} {nm : String} {c : α}
    (hnd : (cfg.map Prod.fst).Nodup) (hmem : (nm, c) ∈ cfg)
    (hskip : skipf (nm, c) = true) :
    ((cfg.filter (fun p => p.1 != nm)).filter (fun p => !(skipf p))).map Prod.fst
      = (cfg.filter (fun p => !(skipf p))).map Prod.fst := by
  induction cfg with
  | nil => exact absurd hmem (List.not_mem_nil _)
  | cons p l ih =>
    rw [List.map_cons, List.nodup_cons] at hnd
    rcases List.mem_cons.mp hmem with h1 | h1
    · have hp1 : p.1 = nm := by rw [← h1]
      have hskp : skipf p = true := by
        rw [← h1]
        exact hskip
      have hne : (p.1 != nm) = false := by
        rw [hp1]
        simp
      have hl : l.filter (fun q => q.1 != nm) = l :=
        filter_ne_of_not_mem (by rw [← hp1]; exact hnd.1)
      simp [List.filter_cons, hne, hskp, hl]
    · have hp1 : p.1 ≠ nm := by
        intro he
        apply hnd.1
        have h3 : ((nm, c).fst) ∈ l.map Prod.fst := List.mem_map_of_mem Prod.fst h1
        rw [he]
        exact h3
      have hne : (p.1 != nm) = true := by
        rw [bne_iff_ne]
        exact hp1
      have hfc : List.filter (fun q => q.1 != nm) (p :: l) =
          p :: List.filter (fun q => q.1 != nm) l := by
        simp [List.filter_cons, hne]
      rw [hfc]
      cases hsp : skipf p with
      | true =>
        simp only [List.filter_cons, hsp, Bool.not_true, if_false]
        exact ih hnd.2 h1
      | false =>
        simp only [List.filter_cons, hsp, Bool.not_false, if_true, List.map_cons]
        rw [ih hnd.2 h1]

/-! ## C4 -/

/-- C4: a backend config whose credential fields carry a placeholder
marker is skipped by `run` before any task is created: its name is absent
from the launched task names, removing the entry from the configuration
changes the task list not at all, and (for the probe-level guard path)
dicts with nonzero error count never enter the collected result maps — so
the backend contributes nothing and is never recorded as an error. -/
theorem c4_placeholder_disqualified :
    (∀ (llmCfg : List (String × Config)) (nm : String) (c : Config),
      (llmCfg.map Prod.fst).Nodup → (nm, c) ∈ llmCfg →
      llm_skip_check nm c = true →
      nm ∉ llm_task_names llmCfg ∧
      llm_task_names (llmCfg.filter (fun p => p.1 != nm)) = llm_task_names llmCfg) ∧
    (∀ (ttsCfg : List (String × Config)) (nm : String) (c : Config),
      (ttsCfg.map Prod.fst).Nodup → (nm, c) ∈ ttsCfg →
      token_placeholder c = true →
      nm ∉ tts_task_names ttsCfg ∧
      tts_task_names (ttsCfg.filter (fun p => p.1 != nm)) = tts_task_names ttsCfg) ∧
    (∀ (asrCfg : List (String × Config)) (wav : ℕ) (nm : String) (c : Config),
      (asrCfg.map Prod.fst).Nodup → (nm, c) ∈ asrCfg →
      token_placeholder c = true →
      nm ∉ stt_task_names asrCfg wav ∧
      stt_task_names (asrCfg.filter (fun p => p.1 != nm)) wav =
        stt_task_names asrCfg wav) ∧
    (∀ (r : Results) (d : ResultDict), d.errors ≠ 0 →
      collect_step r (.dict d) = r) := by
  refine ⟨?_, ?_, ?_, ?_⟩
  · intro cfg nm c hnd hmem hskip
    exact ⟨task_names_not_mem (fun p => llm_skip_check p.1 p.2) hnd hmem hskip,
      task_names_filter_out (fun p => llm_skip_check p.1 p.2) hnd hmem hskip⟩
  · intro cfg nm c hnd hmem hskip
    exact ⟨task_names_not_mem (fun p => token_placeholder p.2) hnd hmem hskip,
      task_names_filter_out (fun p => token_placeholder p.2) hnd hmem hskip⟩
  · intro cfg wav nm c hnd hmem hskip
    unfold stt_task_names
    split_ifs with hw
    · exact ⟨task_names_not_mem (fun p => token_placeholder p.2) hnd hmem hskip,
        task_names_filter_out (fun p => token_placeholder p.2) hnd hmem hskip⟩
    · exact ⟨List.not_mem_nil _, rfl⟩
  · intro r d hd
    have h : collect_step r (.dict d) =
        if d.errors = 0 then
          (match d.kind with
            | Kind.llm => { r with llm := upsert r.llm d.name d }
            | Kind.tts => { r with tts := upsert r.tts d.name d }
            | Kind.stt => { r with stt := upsert r.stt d.name d })
        else r := rfl
    rw [h, if_neg hd]

/-- Witness for C4: concrete configurations with placeholder credentials
for each backend kind, excluded from the launched tasks. -/
theorem c4_placeholder_disqualified_witness :
    (c4_llm_cfgs.map Prod.fst).Nodup ∧
    ("BadLLM", [("api_key", "your_api_key_here")]) ∈ c4_llm_cfgs ∧
    llm_skip_check "BadLLM" [("api_key", "your_api_key_here")] = true ∧
    "BadLLM" ∉ llm_task_names c4_llm_cfgs ∧
    ("BadTTS", [("access_token", "placeholder_token")]) ∈ c4_tts_cfgs ∧
    token_placeholder [("access_token", "placeholder_token")] = true ∧
    "BadTTS" ∉ tts_task_names c4_tts_cfgs ∧
    ("BadASR", [("token", "你的token")]) ∈ c4_asr_cfgs ∧
    token_placeholder [("token", "你的token")] = true ∧
    "BadASR" ∉ stt_task_names c4_asr_cfgs 1 := by
  have hnd1 : (c4_llm_cfgs.map Prod.fst).Nodup := by decide
  have hm1 : ("BadLLM", [("api_key", "your_api_key_here")]) ∈ c4_llm_cfgs := by
    decide
  have hs1 : llm_skip_check "BadLLM" [("api_key", "your_api_key_here")] = true := by
    decide
  have hnd2 : (c4_tts_cfgs.map Prod.fst).Nodup := by decide
  have hm2 : ("BadTTS", [("access_token", "placeholder_token")]) ∈ c4_tts_cfgs := by
    decide
  have hs2 : token_placeholder [("access_token", "placeholder_token")] = true := by
    decide
  have hnd3 : (c4_asr_cfgs.map Prod.fst).Nodup := by decide
  have hm3 : ("BadASR", [("token", "你的token")]) ∈ c4_asr_cfgs := by decide
  have hs3 : token_placeholder [("token", "你的token")] = true := by decide
  exact ⟨hnd1, hm1, hs1,
    (c4_placeholder_disqualified.1 c4_llm_cfgs "BadLLM" _ hnd1 hm1 hs1).1,
    hm2, hs2,
    (c4_placeholder_disqualified.2.1 c4_tts_cfgs "BadTTS" _ hnd2 hm2 hs2).1,
    hm3, hs3,
    (c4_placeholder_disqualified.2.2.1 c4_asr_cfgs 1 "BadASR" _ hnd3 hm3 hs3).1⟩
